import Mathlib

/-!
Verification of the smog-rs telemetry firmware (ESP32, embassy executor).

Shallow embedding of the modular sources (src/config.rs, src/models.rs,
src/sensors.rs, src/tasks.rs, src/time_utils.rs, src/network.rs).
External I/O (the BME280/SGP40 bus reads, the SNTP status reads, the HTTP
POST results) is passed in as explicit inputs; machine integers (u16
counters) are Nat with explicit saturation; floating-point sensor values
are modelled as exact rationals, which preserves the structural behaviour
(presence / absence, the pressure / 100 conversion) the claims are about.
-/

namespace SmogRs

/-- config.rs: HTTP_SEND_INTERVAL_MS = 60_000 (ms). -/
def HTTP_SEND_INTERVAL_MS : Nat := 60000

/-- config.rs: EXECUTION_DELAY_MS = 1000 (ms). -/
def EXECUTION_DELAY_MS : Nat := 1000

/-- config.rs TIMEZONE (provided through the build environment; its exact
value is irrelevant to every claim, only that it is a fixed string). -/
def TIMEZONE : String := "Europe/Warsaw"

/-- sensors.rs: SGP_40_WARMUP_SECS = 60. -/
def SGP_40_WARMUP_SECS : Nat := 60

/-- sensors.rs: SGP_40_STUCK_AT_ONE_THRESHOLD = 20. -/
def SGP_40_STUCK_AT_ONE_THRESHOLD : Nat := 20

/-- models.rs: WeatherData. f32 fields are modelled as exact rationals,
voc: Option<u16> as Option Nat, timestamp_unix_s: i64 as Int. -/
structure WeatherData where
  temperature : ℚ
  humidity : ℚ
  pressure : ℚ
  voc : Option Nat
  time_synced : Bool
  timestamp_unix_s : Int
  timezone : String
deriving DecidableEq, Repr

/-- bme280_rs sample as consumed by sensors.rs read_sensor_data: the one
physical BME280 sample carrying three optional channels. -/
structure BmeSample where
  temperature : Option ℚ
  humidity : Option ℚ
  pressure : Option ℚ
deriving DecidableEq, Repr

/-- sensors.rs WeatherStation::read_sensor_data, with the two external bus
transactions passed in as inputs: bme is the result of
self.bme280.read_sample(), sgp the result of
self.sgp40.measure_voc_index_with_rht(..) (the compensation arguments
derived from h and t go to the external sensor and do not affect the
returned value), synced and ts the snapshots taken from time_utils.
Returns Some(WeatherData) exactly as the source does, None otherwise. -/
def read_sensor_data (bme : Except Unit BmeSample) (sgp : Except Unit Nat)
    (synced : Bool) (ts : Int) : Option WeatherData :=
  match bme with
  | Except.ok sample =>
    match sample.temperature, sample.humidity, sample.pressure with
    | some t, some h, some p =>
      let voc : Option Nat :=
        match sgp with
        | Except.ok voc_index => some voc_index
        | Except.error _ => none
      some { temperature := t, humidity := h,
             pressure := p / 100,  -- Standard conversion to hPa
             voc := voc, time_synced := synced,
             timestamp_unix_s := ts, timezone := TIMEZONE }
    | _, _, _ => none
  | Except.error _ => none

/-- u16::saturating_add on the Nat model. -/
def u16_saturating_add (a b : Nat) : Nat := min (a + b) 65535

/-- sensors.rs Sgp40Health: boot_time is an embassy Instant (milliseconds
since boot, Nat), consecutive_one the u16 counter. -/
structure Sgp40Health where
  boot_time : Nat
  consecutive_one : Nat
deriving DecidableEq, Repr

/-- sensors.rs Sgp40Health::check_stuck_condition. The current instant
(now, ms since boot) is passed in; boot_time.elapsed() is now - boot_time.
Returns the updated state together with the Bool the source returns. -/
def Sgp40Health.check_stuck_condition (st : Sgp40Health) (now : Nat)
    (voc : Option Nat) : Sgp40Health × Bool :=
  if now - st.boot_time < SGP_40_WARMUP_SECS * 1000 then
    ({ st with consecutive_one := 0 }, false)
  else
    match voc with
    | some 1 =>
      let c := u16_saturating_add st.consecutive_one 1
      ({ st with consecutive_one := c },
       decide (SGP_40_STUCK_AT_ONE_THRESHOLD ≤ c))
    | _ =>
      ({ st with consecutive_one := 0 }, false)

/-- Feeds a list of voc observations through check_stuck_condition at a
fixed instant, collecting the returned Booleans in order. -/
def observeSeq (st : Sgp40Health) (now : Nat) (vocs : List (Option Nat)) :
    Sgp40Health × List Bool :=
  vocs.foldl
    (fun acc voc =>
      let r := Sgp40Health.check_stuck_condition acc.1 now voc
      (r.1, acc.2 ++ [r.2]))
    (st, [])

/-- C2: after the warm-up window (boot_time = 0, now = 60000 ms, so
elapsed = warm-up exactly), starting from a zero counter, 19 consecutive
voc = 1 observations each return false and the 20th returns true; and for
any post-warm-up state, any observation other than voc = 1 (other value or
absent) resets the counter to 0 and returns false. -/
theorem check_stuck_threshold_and_reset :
    (observeSeq ⟨0, 0⟩ 60000 (List.replicate 20 (some 1))).2 =
      List.replicate 19 false ++ [true]
    ∧ ∀ (st : Sgp40Health) (now : Nat) (voc : Option Nat),
        ¬ (now - st.boot_time < SGP_40_WARMUP_SECS * 1000) →
        voc ≠ some 1 →
        st.check_stuck_condition now voc =
          ({ st with consecutive_one := 0 }, false) := by
  constructor
  · decide
  · intro st now voc hwarm hne
    unfold Sgp40Health.check_stuck_condition
    rw [if_neg hwarm]
    match voc with
    | none => rfl
    | some 1 => exact absurd rfl hne
    | some 0 => rfl
    | some (n + 2) => rfl

/-- C2 witness: a non-1 observation after warm-up resets the counter. -/
theorem check_stuck_threshold_and_reset_witness :
    Sgp40Health.check_stuck_condition ⟨0, 7⟩ 60000 (some 5) = (⟨0, 0⟩, false) :=
  check_stuck_threshold_and_reset.2 ⟨0, 7⟩ 60000 (some 5)
    (by decide) (by decide)

/-- C3: every observation made strictly inside the warm-up window returns
false and forces the counter to zero, for every voc value and every prior
counter. -/
theorem check_stuck_warmup_always_false :
    ∀ (st : Sgp40Health) (now : Nat) (voc : Option Nat),
      now - st.boot_time < SGP_40_WARMUP_SECS * 1000 →
      st.check_stuck_condition now voc =
        ({ st with consecutive_one := 0 }, false) := by
  intro st now voc hwarm
  unfold Sgp40Health.check_stuck_condition
  rw [if_pos hwarm]

/-- C3 witness: at 59999 ms the 20th consecutive voc = 1 still returns
false and zeroes the counter. -/
theorem check_stuck_warmup_always_false_witness :
    Sgp40Health.check_stuck_condition ⟨0, 19⟩ 59999 (some 1) = (⟨0, 0⟩, false) :=
  check_stuck_warmup_always_false ⟨0, 19⟩ 59999 (some 1) (by decide)

/-- C4: a Reading is produced iff the BME280 sample succeeded with all of
temperature, humidity, pressure present; and in that case the Reading is
fully determined, with voc copied from the SGP40 result when it succeeded
and absent when it failed — an SGP40 failure never suppresses the
Reading. -/
theorem read_sensor_data_iff_triple :
    ∀ (bme : Except Unit BmeSample) (sgp : Except Unit Nat)
      (synced : Bool) (ts : Int),
      ((read_sensor_data bme sgp synced ts).isSome = true ↔
        ∃ s : BmeSample, bme = Except.ok s ∧
          s.temperature.isSome = true ∧ s.humidity.isSome = true ∧
          s.pressure.isSome = true)
      ∧ (∀ (s : BmeSample) (t h p : ℚ),
          bme = Except.ok s → s.temperature = some t → s.humidity = some h →
          s.pressure = some p →
          read_sensor_data bme sgp synced ts =
            some { temperature := t, humidity := h, pressure := p / 100,
                   voc := match sgp with
                          | Except.ok v => some v
                          | Except.error _ => none,
                   time_synced := synced, timestamp_unix_s := ts,
                   timezone := TIMEZONE }) := by
  intro bme sgp synced ts
  constructor
  · constructor
    · intro hsome
      match bme with
      | Except.error e =>
        simp [read_sensor_data] at hsome
      | Except.ok s =>
        refine ⟨s, rfl, ?_⟩
        match ht : s.temperature, hh : s.humidity, hp : s.pressure with
        | some t, some h, some p => simp
        | none, _, _ =>
          simp [read_sensor_data, ht] at hsome
        | some t, none, _ =>
          simp [read_sensor_data, ht, hh] at hsome
        | some t, some h, none =>
          simp [read_sensor_data, ht, hh, hp] at hsome
    · rintro ⟨s, rfl, ht, hh, hp⟩
      obtain ⟨t, ht'⟩ := Option.isSome_iff_exists.mp ht
      obtain ⟨h, hh'⟩ := Option.isSome_iff_exists.mp hh
      obtain ⟨p, hp'⟩ := Option.isSome_iff_exists.mp hp
      simp [read_sensor_data, ht', hh', hp']
  · intro s t h p hb ht hh hp
    subst hb
    simp [read_sensor_data, ht, hh, hp]

/-- C4 witness: a complete triple with a failed SGP40 read yields a
Reading with pressure converted to hPa and voc absent. -/
theorem read_sensor_data_iff_triple_witness :
    read_sensor_data (Except.ok ⟨some 21.5, some 45.3, some 101325⟩)
        (Except.error ()) true 1700000000 =
      some { temperature := 21.5, humidity := 45.3, pressure := 1013.25,
             voc := none, time_synced := true,
             timestamp_unix_s := 1700000000, timezone := TIMEZONE } := by
  have h := (read_sensor_data_iff_triple
      (Except.ok ⟨some 21.5, some 45.3, some 101325⟩)
      (Except.error ()) true 1700000000).2
      ⟨some 21.5, some 45.3, some 101325⟩ 21.5 45.3 101325 rfl rfl rfl rfl
  rw [h]
  norm_num

/-! Time synchronization (src/time_utils.rs). TIME_SYNCED is the AtomicBool,
modelled as the synced field; TIME_SYNCED_SIGNAL is the one-shot wake
signal, modelled by counting how many times signal() was invoked. -/

/-- State of the statics TIME_SYNCED and TIME_SYNCED_SIGNAL in
time_utils.rs: synced is the AtomicBool and signalCount the number of
TIME_SYNCED_SIGNAL.signal(()) calls performed so far. -/
structure TimeSyncState where
  synced : Bool
  signalCount : Nat
deriving DecidableEq, Repr

/-- Boot value of the statics: TIME_SYNCED = false, no signal fired. -/
def TimeSyncState.boot : TimeSyncState := ⟨false, 0⟩

/-- time_utils.rs is_time_synced: relaxed load of TIME_SYNCED. -/
def is_time_synced (s : TimeSyncState) : Bool := s.synced

/-- time_utils.rs mark_time_synced: TIME_SYNCED.swap(true) and, only when
the swapped-out value was false, fire TIME_SYNCED_SIGNAL once. -/
def mark_time_synced (s : TimeSyncState) : TimeSyncState :=
  if s.synced then s
  else { synced := true, signalCount := s.signalCount + 1 }

/-- esp_idf_svc::sntp::SyncStatus. -/
inductive SyncStatus
  | reset
  | completed
  | inProgress
deriving DecidableEq, Repr

/-- time_utils.rs ntp_sync_watcher, one loop iteration: when the polled
status is Completed, mark_time_synced is called (then the loop sleeps 60 s);
otherwise nothing changes (the loop sleeps 1 s). -/
def ntp_sync_watcher_step (s : TimeSyncState) (status : SyncStatus) : TimeSyncState :=
  match status with
  | SyncStatus.completed => mark_time_synced s
  | _ => s

/-- Runs the ntp_sync_watcher loop over a finite list of polled statuses. -/
def ntp_sync_watcher_run (s : TimeSyncState) (statuses : List SyncStatus) : TimeSyncState :=
  statuses.foldl ntp_sync_watcher_step s

theorem ntp_sync_watcher_run_cons (s : TimeSyncState) (st : SyncStatus)
    (rest : List SyncStatus) :
    ntp_sync_watcher_run s (st :: rest) =
      ntp_sync_watcher_run (ntp_sync_watcher_step s st) rest := rfl

theorem watcher_run_synced_eq (statuses : List SyncStatus) :
    ∀ s : TimeSyncState,
      (ntp_sync_watcher_run s statuses).synced =
        (s.synced || statuses.any fun st => st == SyncStatus.completed) := by
  induction statuses with
  | nil => intro s; simp [ntp_sync_watcher_run]
  | cons st rest ih =>
    intro s
    rw [ntp_sync_watcher_run_cons, ih (ntp_sync_watcher_step s st), List.any_cons]
    match st with
    | SyncStatus.completed =>
      by_cases hs : s.synced <;>
        simp [ntp_sync_watcher_step, mark_time_synced, hs]
    | SyncStatus.reset =>
      have hbe : (SyncStatus.reset == SyncStatus.completed) = false := rfl
      simp [ntp_sync_watcher_step, hbe]
    | SyncStatus.inProgress =>
      have hbe : (SyncStatus.inProgress == SyncStatus.completed) = false := rfl
      simp [ntp_sync_watcher_step, hbe]

theorem watcher_run_signal_eq (statuses : List SyncStatus) :
    ∀ s : TimeSyncState,
      (ntp_sync_watcher_run s statuses).signalCount =
        s.signalCount +
          (if s.synced = false ∧ (ntp_sync_watcher_run s statuses).synced = true
           then 1 else 0) := by
  induction statuses with
  | nil =>
    intro s
    simp only [ntp_sync_watcher_run, List.foldl_nil]
    by_cases hs : s.synced <;> simp [hs]
  | cons st rest ih =>
    intro s
    rw [ntp_sync_watcher_run_cons]
    match st with
    | SyncStatus.completed =>
      by_cases hs : s.synced
      · have hstep : ntp_sync_watcher_step s SyncStatus.completed = s := by
          simp [ntp_sync_watcher_step, mark_time_synced, hs]
        simp only [hstep]
        exact ih s
      · have hb : s.synced = false := by simpa using hs
        have hstep : ntp_sync_watcher_step s SyncStatus.completed =
            ⟨true, s.signalCount + 1⟩ := by
          simp [ntp_sync_watcher_step, mark_time_synced, hb]
        simp only [hstep]
        rw [ih ⟨true, s.signalCount + 1⟩]
        have hsy : (ntp_sync_watcher_run ⟨true, s.signalCount + 1⟩ rest).synced = true := by
          rw [watcher_run_synced_eq]; simp
        simp [hsy, hb]
    | SyncStatus.reset =>
      have hstep : ntp_sync_watcher_step s SyncStatus.reset = s := rfl
      simp only [hstep]
      exact ih s
    | SyncStatus.inProgress =>
      have hstep : ntp_sync_watcher_step s SyncStatus.inProgress = s := rfl
      simp only [hstep]
      exact ih s

/-- C5: along any sequence of watcher polls, is_time_synced is exactly
"it was synced before, or some poll observed Completed" (so it is false
until the first successful transition and true forever after, never
reverting); the signal count increases by exactly one on a false-to-true
transition of the flag and by zero otherwise (including on idempotent
re-markings); and from boot the signal fires at most once over the whole
run. -/
theorem time_sync_monotone_one_shot :
    ∀ (s : TimeSyncState) (statuses : List SyncStatus),
      (is_time_synced (ntp_sync_watcher_run s statuses) =
        (is_time_synced s || statuses.any fun st => st == SyncStatus.completed))
      ∧ ((ntp_sync_watcher_run s statuses).signalCount =
          s.signalCount +
            (if is_time_synced s = false ∧
                is_time_synced (ntp_sync_watcher_run s statuses) = true
             then 1 else 0))
      ∧ (ntp_sync_watcher_run TimeSyncState.boot statuses).signalCount ≤ 1 := by
  intro s statuses
  refine ⟨watcher_run_synced_eq statuses s, watcher_run_signal_eq statuses s, ?_⟩
  rw [watcher_run_signal_eq statuses TimeSyncState.boot]
  have hz : TimeSyncState.boot.signalCount = 0 := rfl
  rw [hz]
  split <;> omega

/-! NTP startup (src/time_utils.rs setup_ntp). The loop polls
get_sync_status; the k-th poll result is status k. wait_cycles counts the
completed sleeps and equals the index of the next poll. The fuel argument
makes the recursion structural; MAX_WAIT_CYCLES + 1 fuel is exactly enough
because the loop gives up once wait_cycles reaches MAX_WAIT_CYCLES. -/

/-- time_utils.rs: MAX_WAIT_CYCLES = 100. -/
def MAX_WAIT_CYCLES : Nat := 100

/-- The while loop of setup_ntp: returns true when it exits because a poll
observed Completed (the source then calls mark_time_synced), false when it
returns early because wait_cycles reached MAX_WAIT_CYCLES (the source then
returns Ok without marking). -/
def setup_ntp_go (status : Nat → SyncStatus) (wait_cycles fuel : Nat) : Bool :=
  match fuel with
  | 0 => false
  | fuel' + 1 =>
    if status wait_cycles ≠ SyncStatus.completed then
      if MAX_WAIT_CYCLES ≤ wait_cycles then false
      else setup_ntp_go status (wait_cycles + 1) fuel'
    else true

/-- time_utils.rs setup_ntp. initOk is whether EspSntp::new_default
succeeded; status gives the successive get_sync_status results; s is the
state of the time-sync statics. Returns the updated statics inside the
anyhow::Result: Ok in both the completed and the timed-out case, with
mark_time_synced applied only in the former. -/
def setup_ntp (initOk : Bool) (status : Nat → SyncStatus) (s : TimeSyncState) :
    Except Unit TimeSyncState :=
  if initOk = false then Except.error ()
  else if setup_ntp_go status 0 (MAX_WAIT_CYCLES + 1) then
    Except.ok (mark_time_synced s)
  else
    Except.ok s

theorem setup_ntp_go_iff (status : Nat → SyncStatus) :
    ∀ fuel wait_cycles, fuel + wait_cycles = MAX_WAIT_CYCLES + 1 →
      (setup_ntp_go status wait_cycles fuel = true ↔
        ∃ j, wait_cycles ≤ j ∧ j ≤ MAX_WAIT_CYCLES ∧
          status j = SyncStatus.completed) := by
  intro fuel
  induction fuel with
  | zero =>
    intro k hk
    simp only [setup_ntp_go]
    constructor
    · intro h; cases h
    · rintro ⟨j, hkj, hjM, _⟩
      omega
  | succ fuel' ih =>
    intro k hk
    simp only [setup_ntp_go]
    by_cases hst : status k = SyncStatus.completed
    · simp only [hst]
      simp only [ne_eq, not_true_eq_false, if_false]
      constructor
      · intro _; exact ⟨k, le_refl k, by omega, hst⟩
      · intro _; trivial
    · simp only [ne_eq, hst, not_false_eq_true, if_true]
      by_cases hM : MAX_WAIT_CYCLES ≤ k
      · rw [if_pos hM]
        constructor
        · intro h; cases h
        · rintro ⟨j, hkj, hjM, hj⟩
          have : j = k := by omega
          rw [this] at hj
          exact absurd hj hst
      · rw [if_neg hM]
        rw [ih (k + 1) (by omega)]
        constructor
        · rintro ⟨j, hkj, hjM, hj⟩
          exact ⟨j, by omega, hjM, hj⟩
        · rintro ⟨j, hkj, hjM, hj⟩
          refine ⟨j, ?_, hjM, hj⟩
          rcases Nat.eq_or_lt_of_le hkj with heq | hlt
          · rw [← heq] at hj; exact absurd hj hst
          · omega

/-- C9: with the SNTP client constructable, setup_ntp always returns Ok;
when no poll among indices 0..MAX_WAIT_CYCLES observes Completed it
returns Ok with the time-sync state untouched (in particular from boot the
synced flag stays false), and when some poll within the bound observes
Completed it marks the state synced before returning. -/
theorem setup_ntp_bounded_success :
    ∀ (status : Nat → SyncStatus) (s : TimeSyncState),
      (∃ s', setup_ntp true status s = Except.ok s')
      ∧ ((¬ ∃ j, j ≤ MAX_WAIT_CYCLES ∧ status j = SyncStatus.completed) →
          setup_ntp true status s = Except.ok s)
      ∧ ((∃ j, j ≤ MAX_WAIT_CYCLES ∧ status j = SyncStatus.completed) →
          setup_ntp true status s = Except.ok (mark_time_synced s)) := by
  intro status s
  have hiff := setup_ntp_go_iff status (MAX_WAIT_CYCLES + 1) 0 (by omega)
  refine ⟨?_, ?_, ?_⟩
  · by_cases h : setup_ntp_go status 0 (MAX_WAIT_CYCLES + 1)
    · exact ⟨mark_time_synced s, by simp [setup_ntp, h]⟩
    · exact ⟨s, by simp [setup_ntp, h]⟩
  · intro hno
    have hgo : setup_ntp_go status 0 (MAX_WAIT_CYCLES + 1) = false := by
      by_contra hc
      have : setup_ntp_go status 0 (MAX_WAIT_CYCLES + 1) = true := by
        simpa using hc
      obtain ⟨j, _, hjM, hj⟩ := hiff.mp this
      exact hno ⟨j, hjM, hj⟩
    simp [setup_ntp, hgo]
  · rintro ⟨j, hjM, hj⟩
    have hgo : setup_ntp_go status 0 (MAX_WAIT_CYCLES + 1) = true :=
      hiff.mpr ⟨j, Nat.zero_le j, hjM, hj⟩
    simp [setup_ntp, hgo]

/-- C9 witness: a status source that never completes yields Ok with the
boot state unchanged (flag false); one that completes at the first poll
yields Ok after marking. -/
theorem setup_ntp_bounded_success_witness :
    setup_ntp true (fun _ => SyncStatus.inProgress) TimeSyncState.boot =
        Except.ok TimeSyncState.boot
    ∧ setup_ntp true (fun _ => SyncStatus.completed) TimeSyncState.boot =
        Except.ok ⟨true, 1⟩ := by
  constructor
  · exact (setup_ntp_bounded_success (fun _ => SyncStatus.inProgress)
      TimeSyncState.boot).2.1
      (by rintro ⟨j, _, hj⟩; exact SyncStatus.noConfusion hj)
  · have h := (setup_ntp_bounded_success (fun _ => SyncStatus.completed)
      TimeSyncState.boot).2.2 ⟨0, Nat.zero_le _, rfl⟩
    rw [h]; rfl

/-! Delivery queue (NETWORK_CHANNEL in src/tasks.rs). -/

/-- Modelled from the spec: the DeliveryQueue is the
embassy_sync Channel with message type WeatherData and capacity 2,
declared as the static NETWORK_CHANNEL in src/tasks.rs; the channel
implementation itself is library code outside this repository. Per the
spec it is a bounded FIFO: try_send is non-blocking and rejects (discards)
the new item when the buffer is full, receive hands the single consumer
the oldest item and is modelled as returning none when the buffer is empty
(the consumer stays suspended). The list front is the oldest item. -/
structure Channel (α : Type) where
  buf : List α
deriving DecidableEq, Repr

/-- src/tasks.rs: the capacity 2 in the type of NETWORK_CHANNEL. -/
def CHANNEL_CAPACITY : Nat := 2

/-- Channel::new(): empty buffer. -/
def Channel.empty {α : Type} : Channel α := ⟨[]⟩

/-- Non-blocking try_send: append when below capacity, else reject. -/
def Channel.try_send {α : Type} (c : Channel α) (x : α) : Channel α × Bool :=
  if c.buf.length < CHANNEL_CAPACITY then (⟨c.buf ++ [x]⟩, true) else (c, false)

/-- Blocking receive, modelled on the available-item case; none means the
consumer would suspend. -/
def Channel.receive {α : Type} (c : Channel α) : Option (α × Channel α) :=
  match c.buf with
  | [] => none
  | x :: rest => some (x, ⟨rest⟩)

/-- One producer/consumer action against the queue. -/
inductive QueueOp (α : Type)
  | send (x : α)
  | recv
deriving DecidableEq, Repr

/-- Trace state: the channel plus the log of accepted (successfully
enqueued) items and the log of received items, both in order. -/
structure QueueTrace (α : Type) where
  chan : Channel α
  accepted : List α
  received : List α
deriving DecidableEq, Repr

def queue_step {α : Type} (t : QueueTrace α) (op : QueueOp α) : QueueTrace α :=
  match op with
  | QueueOp.send x =>
    let r := t.chan.try_send x
    { chan := r.1,
      accepted := if r.2 then t.accepted ++ [x] else t.accepted,
      received := t.received }
  | QueueOp.recv =>
    match t.chan.receive with
    | none => t
    | some (x, c') =>
      { chan := c', accepted := t.accepted, received := t.received ++ [x] }

def queue_run {α : Type} (ops : List (QueueOp α)) : QueueTrace α :=
  ops.foldl queue_step ⟨Channel.empty, [], []⟩

/-- The queue invariant: what was received, followed by what is still
buffered, is exactly the accepted items in acceptance order; the buffer
never exceeds the capacity. -/
def QueueInv {α : Type} (t : QueueTrace α) : Prop :=
  t.received ++ t.chan.buf = t.accepted ∧ t.chan.buf.length ≤ CHANNEL_CAPACITY

theorem queue_step_inv {α : Type} (t : QueueTrace α) (op : QueueOp α) :
    QueueInv t → QueueInv (queue_step t op) := by
  rintro ⟨horder, hlen⟩
  match op with
  | QueueOp.send x =>
    by_cases hfull : t.chan.buf.length < CHANNEL_CAPACITY
    · have hsend : t.chan.try_send x = (⟨t.chan.buf ++ [x]⟩, true) := by
        simp [Channel.try_send, hfull]
      constructor
      · simp [queue_step, hsend, ← horder]
      · simp only [queue_step, hsend]
        simpa using hfull
    · have hsend : t.chan.try_send x = (t.chan, false) := by
        simp [Channel.try_send, hfull]
      constructor
      · simp [queue_step, hsend, horder]
      · simpa [queue_step, hsend] using hlen
  | QueueOp.recv =>
    match hb : t.chan.buf with
    | [] =>
      have hrecv : t.chan.receive = none := by simp [Channel.receive, hb]
      constructor
      · simpa [queue_step, hrecv, hb] using horder
      · simpa [queue_step, hrecv] using hlen
    | x :: rest =>
      have hrecv : t.chan.receive = some (x, ⟨rest⟩) := by
        simp [Channel.receive, hb]
      constructor
      · rw [hb] at horder
        simp [queue_step, hrecv, ← horder]
      · rw [hb] at hlen
        simp only [queue_step, hrecv]
        simp only [List.length_cons] at hlen
        simpa using Nat.le_of_succ_le hlen

theorem queue_foldl_inv {α : Type} (ops : List (QueueOp α)) :
    ∀ t : QueueTrace α, QueueInv t → QueueInv (ops.foldl queue_step t) := by
  induction ops with
  | nil => intro t h; simpa using h
  | cons op rest ih =>
    intro t h
    rw [List.foldl_cons]
    exact ih (queue_step t op) (queue_step_inv t op h)

/-- C6: for every sequence of producer/consumer actions against the
capacity-2 queue, the consumer receives exactly the accepted items in
their acceptance (FIFO) order — the received log followed by the still
buffered items equals the accepted log — and the buffer never holds more
than 2 items; moreover try_send on a channel already holding 2 pending
items returns immediately with failure and leaves the channel unchanged
(the third item is discarded, the producer is never blocked). -/
theorem delivery_queue_capacity_fifo (α : Type) (ops : List (QueueOp α)) :
    ((queue_run ops).received ++ (queue_run ops).chan.buf =
        (queue_run ops).accepted
      ∧ (queue_run ops).chan.buf.length ≤ CHANNEL_CAPACITY)
    ∧ ∀ (c : Channel α) (x : α), c.buf.length = CHANNEL_CAPACITY →
        c.try_send x = (c, false) := by
  constructor
  · exact queue_foldl_inv ops ⟨Channel.empty, [], []⟩ (by constructor <;> simp [Channel.empty])
  · intro c x hfull
    simp [Channel.try_send, hfull]

/-- C6 witness: a third enqueue onto a channel already holding two items
fails and leaves the two pending items untouched. -/
theorem delivery_queue_capacity_fifo_witness :
    Channel.try_send (⟨[1, 2]⟩ : Channel Nat) 3 = (⟨[1, 2]⟩, false) :=
  (delivery_queue_capacity_fifo Nat []).2 ⟨[1, 2]⟩ 3 rfl

/-! Sensor acquisition task (src/tasks.rs sensor_task). One loop iteration
is a pure step over the task-local state (last_send_time, the health
detector) and the shared state it touches (NETWORK_CHANNEL, REBOOT_SIGNAL);
the external sensor results for the cycle are the input. REBOOT_SIGNAL is
a single-slot latch; since the claims are about how often it is raised, the
model logs every signal() invocation in order. -/

/-- src/tasks.rs RebootReason. -/
inductive RebootReason
  | Sgp40StuckAtOne
deriving DecidableEq, Repr

/-- State touched by one sensor_task iteration: now is the current embassy
Instant in ms (advanced between cycles by the environment), last_send_time
the local Instant of the last successful enqueue, health the Sgp40Health
owned by the WeatherStation, chan the NETWORK_CHANNEL buffer, and
reboot_signals the log of REBOOT_SIGNAL.signal invocations. -/
structure SensorTaskState where
  now : Nat
  last_send_time : Nat
  health : Sgp40Health
  chan : Channel WeatherData
  reboot_signals : List RebootReason
deriving DecidableEq, Repr

/-- External results feeding one acquisition cycle: the BME280 sample, the
SGP40 measurement, and the time snapshots. -/
structure CycleInput where
  bme : Except Unit BmeSample
  sgp : Except Unit Nat
  synced : Bool
  ts : Int
deriving Repr

/-- src/tasks.rs sensor_task, one loop iteration: read_sensor_data; when a
reading was produced, feed its voc to the stuck detector, signal the
reboot supervisor when it reports stuck, then — only if
HTTP_SEND_INTERVAL_MS has elapsed since last_send_time — try_send the
reading and, when (and only when) the send was accepted, advance
last_send_time to the current instant. The && in the source
short-circuits: no enqueue is even attempted before the interval has
elapsed. -/
def sensor_task_step (st : SensorTaskState) (inp : CycleInput) : SensorTaskState :=
  match read_sensor_data inp.bme inp.sgp inp.synced inp.ts with
  | some data =>
    let r := st.health.check_stuck_condition st.now data.voc
    let signals :=
      if r.2 then st.reboot_signals ++ [RebootReason.Sgp40StuckAtOne]
      else st.reboot_signals
    if HTTP_SEND_INTERVAL_MS ≤ st.now - st.last_send_time then
      let s := st.chan.try_send data
      { st with health := r.1, reboot_signals := signals, chan := s.1,
                last_send_time := if s.2 then st.now else st.last_send_time }
    else
      { st with health := r.1, reboot_signals := signals }
  | none => st

/-- C7: in one acquisition cycle, (i) while the minimum send interval has
not yet elapsed since the last successful enqueue, the channel is not
touched and the reference time is not advanced (no enqueue attempt at
all); (ii) when a reading was produced but the queue already holds
CHANNEL_CAPACITY items, the reading is dropped: the channel is unchanged
and the reference time is not advanced; (iii) whenever the reference time
does change, it is set to the current instant and the channel gained
exactly one item — i.e. it advances only on a successful enqueue. -/
theorem sensor_task_throttle :
    ∀ (st : SensorTaskState) (inp : CycleInput),
      (¬ (HTTP_SEND_INTERVAL_MS ≤ st.now - st.last_send_time) →
        (sensor_task_step st inp).chan = st.chan
        ∧ (sensor_task_step st inp).last_send_time = st.last_send_time)
      ∧ (∀ data : WeatherData,
          read_sensor_data inp.bme inp.sgp inp.synced inp.ts = some data →
          st.chan.buf.length = CHANNEL_CAPACITY →
          (sensor_task_step st inp).chan = st.chan
          ∧ (sensor_task_step st inp).last_send_time = st.last_send_time)
      ∧ ((sensor_task_step st inp).last_send_time ≠ st.last_send_time →
          (sensor_task_step st inp).last_send_time = st.now
          ∧ (sensor_task_step st inp).chan.buf.length =
              st.chan.buf.length + 1) := by
  intro st inp
  match hread : read_sensor_data inp.bme inp.sgp inp.synced inp.ts with
  | none =>
    refine ⟨fun _ => ?_, fun data hdata _ => ?_, fun hne => ?_⟩
    · simp [sensor_task_step, hread]
    · exact Option.noConfusion hdata
    · simp only [sensor_task_step, hread] at hne
      exact absurd rfl hne
  | some data =>
    by_cases helapsed : HTTP_SEND_INTERVAL_MS ≤ st.now - st.last_send_time
    · by_cases hroom : st.chan.buf.length < CHANNEL_CAPACITY
      · have hsend : st.chan.try_send data = (⟨st.chan.buf ++ [data]⟩, true) := by
          simp [Channel.try_send, hroom]
        refine ⟨fun hne => absurd helapsed hne, fun d hd hfull => ?_, fun _ => ?_⟩
        · omega
        · constructor
          · simp [sensor_task_step, hread, helapsed, hsend]
          · simp [sensor_task_step, hread, helapsed, hsend]
      · have hsend : st.chan.try_send data = (st.chan, false) := by
          simp [Channel.try_send, hroom]
        refine ⟨fun hne => absurd helapsed hne, fun d hd hfull => ?_, fun hne => ?_⟩
        · constructor
          · simp [sensor_task_step, hread, helapsed, hsend]
          · simp [sensor_task_step, hread, helapsed, hsend]
        · exfalso
          apply hne
          simp [sensor_task_step, hread, helapsed, hsend]
    · refine ⟨fun _ => ?_, fun d hd hfull => ?_, fun hne => ?_⟩
      · constructor <;> simp [sensor_task_step, hread, helapsed]
      · constructor <;> simp [sensor_task_step, hread, helapsed]
      · exfalso
        apply hne
        simp [sensor_task_step, hread, helapsed]

/-- C7 witness: with the interval elapsed and a full queue, the produced
reading is dropped and the reference time stays put. -/
theorem sensor_task_throttle_witness :
    (sensor_task_step
        ⟨60000, 0, ⟨0, 0⟩,
         ⟨[⟨1, 1, 1, none, false, 0, TIMEZONE⟩, ⟨2, 2, 2, none, false, 0, TIMEZONE⟩]⟩, []⟩
        ⟨Except.ok ⟨some 20, some 50, some 100000⟩, Except.ok 100, false, 0⟩).chan =
      ⟨[⟨1, 1, 1, none, false, 0, TIMEZONE⟩, ⟨2, 2, 2, none, false, 0, TIMEZONE⟩]⟩
    ∧ (sensor_task_step
        ⟨60000, 0, ⟨0, 0⟩,
         ⟨[⟨1, 1, 1, none, false, 0, TIMEZONE⟩, ⟨2, 2, 2, none, false, 0, TIMEZONE⟩]⟩, []⟩
        ⟨Except.ok ⟨some 20, some 50, some 100000⟩, Except.ok 100, false, 0⟩).last_send_time = 0 :=
  (sensor_task_throttle _ _).2.1
    ⟨20, 50, 1000, some 100, false, 0, TIMEZONE⟩ (by norm_num [read_sensor_data]) rfl

/-- C8: in one acquisition cycle the reboot signal is raised with the
sensor-stuck reason exactly once when the health monitor reports a stuck
condition for the produced reading's voc, and is not raised at all when
the monitor reports false or no reading was produced. -/
theorem sensor_task_reboot_exact :
    ∀ (st : SensorTaskState) (inp : CycleInput),
      (sensor_task_step st inp).reboot_signals =
        st.reboot_signals ++
          (match read_sensor_data inp.bme inp.sgp inp.synced inp.ts with
           | some data =>
             if (st.health.check_stuck_condition st.now data.voc).2 then
               [RebootReason.Sgp40StuckAtOne]
             else []
           | none => []) := by
  intro st inp
  match hread : read_sensor_data inp.bme inp.sgp inp.synced inp.ts with
  | none => simp [sensor_task_step, hread]
  | some data =>
    by_cases hstuck : (st.health.check_stuck_condition st.now data.voc).2
    · by_cases helapsed : HTTP_SEND_INTERVAL_MS ≤ st.now - st.last_send_time <;>
        simp [sensor_task_step, hread, hstuck, helapsed]
    · by_cases helapsed : HTTP_SEND_INTERVAL_MS ≤ st.now - st.last_send_time <;>
        simp [sensor_task_step, hread, hstuck, helapsed]

/-! Network delivery task (src/tasks.rs network_task). The loop body is:
construct a client via HttpClient::new() (on failure: warn, 2 s delay,
continue), NETWORK_CHANNEL.receive(), one post_data call, then match on
the outcome — 200/201 logs, Ok(429) delays 5 s, any other Ok(status) logs
an error, Err delays 2 s and continues. In every path the client binding
then goes out of scope (its Drop closes the socket), so the next iteration
constructs a fresh client. -/

/-- Result of one post_data call: Ok(status) with the u16 status, or Err
(a transport/request failure that never produced a status). -/
inductive PostOutcome
  | ok (status : Nat)
  | err
deriving DecidableEq, Repr

/-- Script entry for one pass through the network_task loop body: either
HttpClient::new() failed (no dequeue, no POST happens in that pass), or it
succeeded and the single post_data call has the given outcome. -/
inductive NetEvent
  | initErr
  | cycle (outcome : PostOutcome)
deriving DecidableEq, Repr

/-- Log record of one post_data invocation: the reading posted, the serial
number of the client used (1-based count of successful HttpClient::new()
calls), and the outcome. -/
structure PostRecord where
  data : WeatherData
  clientIdx : Nat
  outcome : PostOutcome
deriving DecidableEq, Repr

/-- Observable state of the network task: the pending NETWORK_CHANNEL
items (front = oldest), the count of successful client constructions, the
log of dequeued readings, and the log of POST attempts. -/
structure NetState where
  queue : List WeatherData
  constructions : Nat
  dequeued : List WeatherData
  posts : List PostRecord
deriving DecidableEq, Repr

/-- src/tasks.rs network_task, one pass through the loop body. An empty
queue means the task is still suspended in receive().await with the fresh
client already built. No outcome arm re-enqueues the dequeued reading or
posts it a second time; the outcome only selects which delay/log runs. -/
def network_iter (st : NetState) (ev : NetEvent) : NetState :=
  match ev with
  | NetEvent.initErr => st
  | NetEvent.cycle outcome =>
    let cidx := st.constructions + 1
    match st.queue with
    | [] => { st with constructions := cidx }
    | data :: rest =>
      { queue := rest,
        constructions := cidx,
        dequeued := st.dequeued ++ [data],
        posts := st.posts ++ [⟨data, cidx, outcome⟩] }

def network_run (st : NetState) (evs : List NetEvent) : NetState :=
  evs.foldl network_iter st

/-- Placeholder readings used to populate the queue in the scripted
scenario. -/
def dummyReading (n : Nat) : WeatherData :=
  ⟨n, n, n, none, false, 0, TIMEZONE⟩

/-- The scripted POST-outcome sequence of the claim:
[transport-error, 200, 429, 500, transport-error], with every
HttpClient::new() succeeding. -/
def scriptedOutcomes : List NetEvent :=
  [NetEvent.cycle PostOutcome.err, NetEvent.cycle (PostOutcome.ok 200),
   NetEvent.cycle (PostOutcome.ok 429), NetEvent.cycle (PostOutcome.ok 500),
   NetEvent.cycle PostOutcome.err]

/-- Start state for the scripted scenario: five readings pending, no
client built yet. -/
def scriptedStart : NetState :=
  ⟨[dummyReading 1, dummyReading 2, dummyReading 3, dummyReading 4,
    dummyReading 5], 0, [], []⟩

/-- C1 counterexample: on the scripted sequence the code performs five
client constructions, not the three (one initial + exactly two rebuilds)
the claim requires, and the dequeues separated by the 200 outcome are
served by different client instances (indices 2 and 3), not the same
one. -/
theorem network_rebuild_counterexample :
    (network_run scriptedStart scriptedOutcomes).constructions = 5
    ∧ ¬ ((network_run scriptedStart scriptedOutcomes).constructions = 3)
    ∧ (network_run scriptedStart scriptedOutcomes).posts.map PostRecord.clientIdx
        = [1, 2, 3, 4, 5] := by
  refine ⟨rfl, ?_, rfl⟩
  intro h
  have h5 : (network_run scriptedStart scriptedOutcomes).constructions = 5 := rfl
  rw [h5] at h
  exact absurd h (by decide)

/-- C1 amended: the network task constructs a fresh client on every pass
through its loop, before every dequeue — after transport errors and
equally after 200, 429 and 500 — so the scripted sequence causes five
constructions (four after the initial one), every dequeue is served by a
distinct client, and each scripted pass adds exactly one construction. -/
theorem network_rebuild_every_cycle :
    ((network_run scriptedStart scriptedOutcomes).constructions = 5
      ∧ (network_run scriptedStart scriptedOutcomes).posts.map PostRecord.clientIdx
          = [1, 2, 3, 4, 5]
      ∧ ((network_run scriptedStart scriptedOutcomes).posts.map
          PostRecord.clientIdx).Nodup)
    ∧ ∀ (st : NetState) (o : PostOutcome),
        (network_iter st (NetEvent.cycle o)).constructions =
          st.constructions + 1 := by
  constructor
  · refine ⟨rfl, rfl, ?_⟩
    have h : (network_run scriptedStart scriptedOutcomes).posts.map
        PostRecord.clientIdx = [1, 2, 3, 4, 5] := rfl
    rw [h]
    decide
  · intro st o
    match hq : st.queue with
    | [] => simp [network_iter, hq]
    | d :: rest => simp [network_iter, hq]

/-- C10: every dequeued reading is the subject of exactly one POST attempt
(the post log projected to readings is always exactly the dequeue log, in
order), and readings are never re-enqueued: the dequeue log followed by
the still-pending queue is invariant across any scripted run, so a failed
delivery permanently loses the reading. -/
theorem network_post_once_no_requeue :
    ∀ (st : NetState) (evs : List NetEvent),
      st.posts.map PostRecord.data = st.dequeued →
      ((network_run st evs).posts.map PostRecord.data =
          (network_run st evs).dequeued
        ∧ (network_run st evs).dequeued ++ (network_run st evs).queue =
            st.dequeued ++ st.queue) := by
  intro st evs
  induction evs generalizing st with
  | nil => intro h; exact ⟨h, rfl⟩
  | cons ev rest ih =>
    intro h
    have hcons : network_run st (ev :: rest) =
        network_run (network_iter st ev) rest := rfl
    rw [hcons]
    match ev with
    | NetEvent.initErr =>
      have hstep : network_iter st NetEvent.initErr = st := rfl
      rw [hstep]
      exact ih st h
    | NetEvent.cycle o =>
      match hq : st.queue with
      | [] =>
        have hstep : network_iter st (NetEvent.cycle o) =
            { st with constructions := st.constructions + 1 } := by
          simp [network_iter, hq]
        rw [hstep]
        have := ih { st with constructions := st.constructions + 1 } (by simpa using h)
        refine ⟨this.1, ?_⟩
        rw [this.2]
        simp [hq]
      | d :: rest' =>
        have hstep : network_iter st (NetEvent.cycle o) =
            { queue := rest', constructions := st.constructions + 1,
              dequeued := st.dequeued ++ [d],
              posts := st.posts ++ [⟨d, st.constructions + 1, o⟩] } := by
          simp [network_iter, hq]
        rw [hstep]
        have hinv : (st.posts ++ [(⟨d, st.constructions + 1, o⟩ : PostRecord)]).map
            PostRecord.data = st.dequeued ++ [d] := by
          simp [h]
        have := ih { queue := rest', constructions := st.constructions + 1,
                     dequeued := st.dequeued ++ [d],
                     posts := st.posts ++ [(⟨d, st.constructions + 1, o⟩ : PostRecord)] } hinv
        refine ⟨this.1, ?_⟩
        rw [this.2]
        simp

/-- C10 witness: a run whose two POSTs are a transport failure and a 500
posts each dequeued reading exactly once and ends with both readings gone
from the queue for good. -/
theorem network_post_once_no_requeue_witness :
    (network_run ⟨[dummyReading 1, dummyReading 2], 0, [], []⟩
        [NetEvent.cycle PostOutcome.err, NetEvent.cycle (PostOutcome.ok 500)]).posts.map
        PostRecord.data =
      (network_run ⟨[dummyReading 1, dummyReading 2], 0, [], []⟩
        [NetEvent.cycle PostOutcome.err, NetEvent.cycle (PostOutcome.ok 500)]).dequeued
    ∧ (network_run ⟨[dummyReading 1, dummyReading 2], 0, [], []⟩
        [NetEvent.cycle PostOutcome.err, NetEvent.cycle (PostOutcome.ok 500)]).dequeued
        ++ (network_run ⟨[dummyReading 1, dummyReading 2], 0, [], []⟩
        [NetEvent.cycle PostOutcome.err, NetEvent.cycle (PostOutcome.ok 500)]).queue
      = [] ++ [dummyReading 1, dummyReading 2] :=
  network_post_once_no_requeue ⟨[dummyReading 1, dummyReading 2], 0, [], []⟩
    [NetEvent.cycle PostOutcome.err, NetEvent.cycle (PostOutcome.ok 500)] rfl

end SmogRs
